import Mathlib

/-!
Shallow embedding of the connector and embedding layer of `mcp-server-qdrant`
(files `src/mcp_server_qdrant/qdrant.py` and
`src/mcp_server_qdrant/embeddings/custom_fastembed.py`).

Python values stored in metadata dictionaries and payloads are modelled by
`PyVal`; dictionaries by association lists; `None`-able fields by `Option`.
The remote Qdrant client and the FastEmbed backend are external collaborators:
the remote store is modelled by an explicit state record (`St`) threaded
through the connector operations, and the backend's numeric inference by
function-valued fields of the provider.
-/

namespace McpQdrant

/-- A Python value as it appears in a metadata dict or a Qdrant payload. -/
inductive PyVal where
  | vStr (s : String)
  | vInt (n : Int)
  | vNone
deriving DecidableEq, Repr

/-- Python `str(v)` for the modelled values. -/
def pyStr : PyVal → String
  | .vStr s => s
  | .vInt n => toString n
  | .vNone => "None"

/-- Python truthiness of a modelled value (`""`, `0` and `None` are falsy). -/
def pyTruthy : PyVal → Bool
  | .vStr s => s ≠ ""
  | .vInt n => n ≠ 0
  | .vNone => false

/-- A metadata dictionary (`Metadata = dict[str, Any]` in `qdrant.py`). -/
abbrev Metadata := List (String × PyVal)

/-- Python `k in d` / `d[k]` on a dict, as association-list lookup. -/
def dictGet (md : Metadata) (k : String) : Option PyVal :=
  List.lookup k md

/-- Python `needle in hay` on strings: contiguous-substring test
(on the character lists). -/
def charsIn (needle : List Char) : List Char → Bool
  | [] => needle.isEmpty
  | c :: t => needle.isPrefixOf (c :: t) || charsIn needle t

/-- Python `needle in hay` on strings. -/
def pyIn (needle hay : String) : Bool :=
  charsIn needle.toList hay.toList

/-- Python `s.lower()`, for the ASCII range (all platform markers are
ASCII). Defined over the character list so it reduces in the kernel. -/
def strLower (s : String) : String := String.mk (s.toList.map Char.toLower)

/-- Python truthiness of an optional string (`None` and `""` are falsy). -/
def optStrTruthy : Option String → Bool
  | none => false
  | some s => s ≠ ""

/-- `Entry` of `qdrant.py`: content, optional metadata, optional similarity
score, and the two derived fields. The float score is modelled by `Rat`. -/
structure Entry where
  content : String
  metadata : Option Metadata := none
  similarity_score : Option Rat := none
  platform : Option String := none
  date : Option String := none
deriving DecidableEq, Repr

/-- Body of `Entry.detect_platform` (the method reads only `self.content`):
case-insensitive first-match scan of the content for the hashtag/keyword
markers, in the source's order. -/
def detectPlatformOf (content : String) : String :=
  let content_lower := strLower content
  if ["#twitter", "#tweet", "@"].any (fun tag => pyIn tag content_lower) then "Twitter/X"
  else if ["#instagram", "#insta", "#ig"].any (fun tag => pyIn tag content_lower) then "Instagram"
  else if ["#facebook", "#fb"].any (fun tag => pyIn tag content_lower) then "Facebook"
  else if ["#linkedin", "#in"].any (fun tag => pyIn tag content_lower) then "LinkedIn"
  else if ["#tiktok", "#fyp", "#foryou"].any (fun tag => pyIn tag content_lower) then "TikTok"
  else if ["#youtube", "#yt"].any (fun tag => pyIn tag content_lower) then "YouTube"
  else if ["#reddit", "/r/"].any (fun tag => pyIn tag content_lower) then "Reddit"
  else if pyIn "http" content_lower then "Web/Blog"
  else "Social Media"

/-- `Entry.detect_platform`. -/
def Entry.detect_platform (e : Entry) : String :=
  detectPlatformOf e.content

/-- Consume exactly `n` decimal digits (regex `\d{n}` at a position). -/
def takeDigits : Nat → List Char → Option (List Char × List Char)
  | 0, l => some ([], l)
  | _ + 1, [] => none
  | n + 1, c :: t =>
    if c.isDigit then (takeDigits n t).map (fun p => (c :: p.1, p.2)) else none

/-- Consume one expected literal character. -/
def expectChar (c : Char) : List Char → Option (List Char)
  | [] => none
  | x :: t => if x = c then some t else none

/-- Greedy alternation over repetition counts (regex backtracking for a
bounded quantifier: first count that lets the rest match wins). -/
def firstCount (ns : List Nat) (f : Nat → Option (List Char)) : Option (List Char) :=
  match ns with
  | [] => none
  | n :: t =>
    match f n with
    | some r => some r
    | none => firstCount t f

/-- Regex `\d{4}-\d{2}-\d{2}` matched at the head of the list, returning the
matched text. -/
def matchYMD (l : List Char) : Option (List Char) := do
  let (a, r1) ← takeDigits 4 l
  let r2 ← expectChar '-' r1
  let (b, r3) ← takeDigits 2 r2
  let r4 ← expectChar '-' r3
  let (c, _) ← takeDigits 2 r4
  return a ++ '-' :: b ++ '-' :: c

/-- Regex `\d{2}/\d{2}/\d{4}` matched at the head of the list. -/
def matchMDY (l : List Char) : Option (List Char) := do
  let (a, r1) ← takeDigits 2 l
  let r2 ← expectChar '/' r1
  let (b, r3) ← takeDigits 2 r2
  let r4 ← expectChar '/' r3
  let (c, _) ← takeDigits 4 r4
  return a ++ '/' :: b ++ '/' :: c

/-- Regex `\d{1,2}/\d{1,2}/\d{2,4}` matched at the head of the list, with
greedy quantifiers and backtracking. -/
def matchGeneric (l : List Char) : Option (List Char) :=
  firstCount [2, 1] fun n1 => do
    let (a, r1) ← takeDigits n1 l
    let r2 ← expectChar '/' r1
    firstCount [2, 1] fun n2 => do
      let (b, r3) ← takeDigits n2 r2
      let r4 ← expectChar '/' r3
      firstCount [4, 3, 2] fun n3 => do
        let (c, _) ← takeDigits n3 r4
        return a ++ '/' :: b ++ '/' :: c

/-- `re.search`: scan positions left to right, return the first match. -/
def searchPat (m : List Char → Option (List Char)) : List Char → Option (List Char)
  | [] => m []
  | c :: t =>
    match m (c :: t) with
    | some r => some r
    | none => searchPat m t

/-- The content half of `Entry.extract_date`: the three date regexes tried in
the source's order, each searched over the whole content. -/
def contentDateSearch (content : String) : Option String :=
  match searchPat matchYMD content.toList with
  | some r => some (String.mk r)
  | none =>
    match searchPat matchMDY content.toList with
    | some r => some (String.mk r)
    | none =>
      match searchPat matchGeneric content.toList with
      | some r => some (String.mk r)
      | none => none

/-- Body of `Entry.extract_date` (the method reads only `self.metadata` and
`self.content`): metadata fields `date`, `timestamp`, `created_at` in order
(guarded by Python truthiness of the dict: an empty dict skips the metadata
branch), then the content regexes. -/
def extractDateOf (content : String) (metadata : Option Metadata) : Option String :=
  let fromMeta : Option String :=
    match metadata with
    | some md =>
      if md.isEmpty then none
      else
        match dictGet md "date" with
        | some v => some (pyStr v)
        | none =>
          match dictGet md "timestamp" with
          | some v => some (pyStr v)
          | none =>
            match dictGet md "created_at" with
            | some v => some (pyStr v)
            | none => none
    | none => none
  match fromMeta with
  | some s => some s
  | none => contentDateSearch content

/-- `Entry.extract_date`. -/
def Entry.extract_date (e : Entry) : Option String :=
  extractDateOf e.content e.metadata

/-- First statement of `Entry.enrich_metadata`: fill `platform` when it is
falsy (Python `if not self.platform:` treats `None` and `""` alike). -/
def Entry.enrichPlatformStep (e : Entry) : Entry :=
  if optStrTruthy e.platform then e else { e with platform := some e.detect_platform }

/-- Second statement of `Entry.enrich_metadata`: fill `date` when falsy. -/
def Entry.enrichDateStep (e : Entry) : Entry :=
  if optStrTruthy e.date then e else { e with date := e.extract_date }

/-- `Entry.enrich_metadata`: the two fill statements in the source's order. -/
def Entry.enrich_metadata (e : Entry) : Entry :=
  e.enrichPlatformStep.enrichDateStep

/-! ### Spec-side definitions for the refinement claims -/

/-- The spec's ordered platform rule set (§4.4): `(markers, label)` pairs. -/
def platformRules : List (List String × String) :=
  [(["#twitter", "#tweet", "@"], "Twitter/X"),
   (["#instagram", "#insta", "#ig"], "Instagram"),
   (["#facebook", "#fb"], "Facebook"),
   (["#linkedin", "#in"], "LinkedIn"),
   (["#tiktok", "#fyp", "#foryou"], "TikTok"),
   (["#youtube", "#yt"], "YouTube"),
   (["#reddit", "/r/"], "Reddit")]

/-- First-match evaluation of an ordered rule list over lowercased content. -/
def firstRule (cl : String) : List (List String × String) → Option String
  | [] => none
  | r :: t => if r.1.any (fun tag => pyIn tag cl) then some r.2 else firstRule cl t

/-- Modelled from the spec's words (§4.4): case-insensitive ordered
first-match rule evaluation, then the `http` fallback, then the default. -/
def specPlatform (content : String) : String :=
  match firstRule (strLower content) platformRules with
  | some label => label
  | none => if pyIn "http" (strLower content) then "Web/Blog" else "Social Media"

/-- Modelled from the spec's words (§4.4): metadata fields `date`,
`timestamp`, `created_at` checked in order, first present wins coerced to
string; otherwise the first content regex match, patterns tried in order;
otherwise absent. -/
def specExtractDate (content : String) (metadata : Option Metadata) : Option String :=
  let fromMeta : Option String :=
    match metadata with
    | some md =>
      ((dictGet md "date").map pyStr).orElse fun _ =>
        ((dictGet md "timestamp").map pyStr).orElse fun _ =>
          (dictGet md "created_at").map pyStr
    | none => none
  fromMeta.orElse fun _ => contentDateSearch content

/-! ### The embedding provider (`custom_fastembed.py`) -/

/-- The default query instruction of `CustomFastEmbedProvider.__init__`. -/
def DEFAULT_QUERY_PREFIX : String :=
  "Instruct: Given a query of a social media caption, find other social media captions that are most relevant. Query: "

/-- `self.query_prefix = query_prefix or DEFAULT` in `__init__` (Python
`or`: both `None` and `""` fall back to the default instruction). -/
def initQueryPrefix : Option String → String
  | none => DEFAULT_QUERY_PREFIX
  | some s => if s = "" then DEFAULT_QUERY_PREFIX else s

/-- `CustomFastEmbedProvider`, reduced to the fields the claims depend on.
The FastEmbed backend's numerical inference is an external collaborator
(spec §1): its `query_embed` and `passage_embed` endpoints are modelled as
function-valued fields producing rational vectors. The Python attribute
`query_prefix` is named `queryPrefix` here. -/
structure CustomFastEmbedProvider where
  queryPrefix : String
  query_embed : String → List Rat
  passage_embed : String → List Rat
  vector_size : Nat

/-- The constructor's handling of the `query_prefix` argument, with the
backend handles supplied explicitly. -/
def CustomFastEmbedProvider.init (qp : Option String) (qe pe : String → List Rat)
    (vs : Nat) : CustomFastEmbedProvider :=
  { queryPrefix := initQueryPrefix qp, query_embed := qe, passage_embed := pe,
    vector_size := vs }

/-- The text `embed_query` submits to the backend: the configured
instruction concatenated in front of the query when it is truthy
(`if self.query_prefix:`). -/
def CustomFastEmbedProvider.queryText (p : CustomFastEmbedProvider) (query : String) : String :=
  if p.queryPrefix ≠ "" then p.queryPrefix ++ query else query

/-- `embed_query`: instruction applied when truthy, then
`TextEmbedding.query_embed` on the single resulting text. -/
def CustomFastEmbedProvider.embed_query (p : CustomFastEmbedProvider) (query : String) : List Rat :=
  p.query_embed (p.queryText query)

/-- `embed_documents`: `TextEmbedding.passage_embed` on each document; no
instruction is ever applied. -/
def CustomFastEmbedProvider.embed_documents (p : CustomFastEmbedProvider)
    (documents : List String) : List (List Rat) :=
  documents.map p.passage_embed

/-- `get_vector_name`: the fixed slot name. -/
def CustomFastEmbedProvider.get_vector_name (_ : CustomFastEmbedProvider) : String :=
  "text_dense"

/-! ### The connector (`qdrant.py`) -/

/-- A Qdrant point payload, modelled by the three keys the connector reads
or writes (`document`, `text`, `metadata`); a key bound to `none` is absent
from the dict. -/
structure Payload where
  document : Option PyVal := none
  text : Option PyVal := none
  metadata : Option Metadata := none
deriving DecidableEq, Repr

/-- A point stored in a remote collection: `{id, vector, payload}`. The
`uuid4().hex` identifier is modelled by a fresh natural number drawn from
the state's counter. -/
structure Point where
  id : Nat
  vector : List (String × List Rat)
  payload : Payload
deriving DecidableEq, Repr

/-- A scored point of the remote `query_points` response. -/
structure ScoredPoint where
  score : Option Rat := none
  payload : Option Payload := none
deriving DecidableEq, Repr

/-- The remote store's observable state, with counters for the calls the
connector issues (collection creation, payload-index creation, upsert) and
for the embedding calls. -/
structure St where
  collections : List String := []
  points : List (String × Point) := []
  nextId : Nat := 0
  createCalls : Nat := 0
  payloadIndexCalls : Nat := 0
  upsertCalls : Nat := 0
  embedDocCalls : Nat := 0
  embedQueryCalls : Nat := 0
deriving DecidableEq, Repr

/-- Errors surfaced by the connector. The failed
`assert collection_name is not None` is the spec taxonomy's
`ConfigurationError`; `validationError` models the pydantic error raised
when a remote payload yields a non-string content for `Entry`. -/
inductive QErr where
  | configurationError
  | validationError
deriving DecidableEq, Repr

/-- `METADATA_PATH` imported from `settings.py`. Modelled from the spec:
`settings.py` is not under `src/`; `search` reads the payload's `metadata`
key, so the stored key is `"metadata"`. -/
def METADATA_PATH : String := "metadata"

/-- The connector's configuration; the remote client's state lives in `St`. -/
structure QdrantConnector where
  default_collection_name : Option String
  embedding_provider : CustomFastEmbedProvider
  field_indexes : List String := []

/-- `collection_name or self._default_collection_name` (Python `or`: an
explicit `""` falls back to the default), `none` meaning the assert on a
missing name fires. -/
def QdrantConnector.resolveCollection (c : QdrantConnector)
    (explicitName : Option String) : Option String :=
  match explicitName with
  | some s => if s ≠ "" then some s else c.default_collection_name
  | none => c.default_collection_name

/-- `_ensure_collection_exists`: existence check, then — only when absent —
one `create_collection` call (schema from the provider) followed by one
`create_payload_index` call per configured field. -/
def QdrantConnector.ensure_collection_exists (c : QdrantConnector) (name : String)
    (st : St) : St :=
  if st.collections.contains name then st
  else
    { st with
      collections := name :: st.collections
      createCalls := st.createCalls + 1
      payloadIndexCalls := st.payloadIndexCalls + c.field_indexes.length }

/-- The one point `store` upserts: fresh identifier, embedded vector under
the provider's vector name, payload `{"document": content, METADATA_PATH:
metadata}`. -/
def storedPoint (c : QdrantConnector) (entry : Entry) (idv : Nat) : Point :=
  { id := idv
    vector := [(c.embedding_provider.get_vector_name,
                (c.embedding_provider.embed_documents [entry.content]).headD [])]
    payload := { document := some (.vStr entry.content), metadata := entry.metadata } }

/-- `store`: resolve the collection (the failed assert is the
`ConfigurationError`, at which point the input state is returned untouched:
no embedding call and no remote call has been made), ensure the collection
exists, embed the content via `embed_documents`, and upsert one point. -/
def QdrantConnector.store (c : QdrantConnector) (entry : Entry)
    (collection_name : Option String) (st : St) : Option QErr × St :=
  match c.resolveCollection collection_name with
  | none => (some .configurationError, st)
  | some name =>
    let st1 := c.ensure_collection_exists name st
    let st2 := { st1 with embedDocCalls := st1.embedDocCalls + 1 }
    (none,
      { st2 with
        points := st2.points ++ [(name, storedPoint c entry st2.nextId)]
        nextId := st2.nextId + 1
        upsertCalls := st2.upsertCalls + 1 })

/-- `payload.get("document") or payload.get("text", "")` (Python `or`: a
falsy document value — absent key, `""`, `0` or `None` — falls back to the
`text` key, whose value is taken as-is, defaulting to `""`). -/
def contentVal (payload : Payload) : PyVal :=
  match payload.document with
  | some v => if pyTruthy v then v else payload.text.getD (.vStr "")
  | none => payload.text.getD (.vStr "")

/-- Build the `Entry` for one remote result: `result.payload or {}`, the
content fallback chain, metadata and score passed through, then enrichment.
`none` models the pydantic `ValidationError` raised when the content value
is not a string. -/
def mapScoredPoint (r : ScoredPoint) : Option Entry :=
  let payload := r.payload.getD {}
  match contentVal payload with
  | .vStr s =>
    some (Entry.enrich_metadata
      { content := s, metadata := payload.metadata, similarity_score := r.score })
  | _ => none

/-- `search`: resolve the collection (assert), return `[]` as soon as the
collection does not exist, otherwise embed the query and map the remote
response (`remote` is the oracle for what `query_points` returns for the
embedded query under the given limit and filter) to enriched entries. -/
def QdrantConnector.search (c : QdrantConnector) (query : String)
    (collection_name : Option String) (limit : Nat) (query_filter : Option Metadata)
    (remote : List ScoredPoint) (st : St) : Option QErr × List Entry × St :=
  match c.resolveCollection collection_name with
  | none => (some .configurationError, [], st)
  | some name =>
    if st.collections.contains name then
      let _query_vector := c.embedding_provider.embed_query query
      let st1 := { st with embedQueryCalls := st.embedQueryCalls + 1 }
      match remote.mapM mapScoredPoint with
      | some entries => (none, entries, st1)
      | none => (some .validationError, [], st1)
    else (none, [], st)

/-! ### Concrete instances used by witnesses and counterexamples -/

/-- A backend colliding all texts to one vector; a legitimate instantiation
of the external inference functions, which this layer does not constrain. -/
def constBackend : String → List Rat := fun _ => [0]

/-- Provider built by the constructor with no explicit instruction (so the
non-empty default) over the constant backend. -/
def constProvider : CustomFastEmbedProvider :=
  CustomFastEmbedProvider.init none constBackend constBackend 1024

/-- Connector with no default collection name. -/
def connNoDefault : QdrantConnector :=
  { default_collection_name := none, embedding_provider := constProvider }

/-- Connector with a default collection name. -/
def connWithDefault : QdrantConnector :=
  { default_collection_name := some "memories", embedding_provider := constProvider }

/-- A remote result whose payload has an empty-string `document` value and a
non-empty `text` value. -/
def fallbackPoint : ScoredPoint :=
  { score := some 1,
    payload := some { document := some (.vStr ""), text := some (.vStr "t") } }

/-- A remote result with an ordinary non-empty `document` value. -/
def docPoint : ScoredPoint :=
  { score := some 1, payload := some { document := some (.vStr "doc") } }

/-! ## Helper lemmas -/

/-- Every branch of platform detection returns a non-empty label. -/
theorem detectPlatformOf_ne_empty (content : String) : detectPlatformOf content ≠ "" := by
  simp only [detectPlatformOf]
  repeat' split
  all_goals decide

/-- `detect_platform` agrees with the spec's ordered-rule evaluator. -/
theorem detectPlatformOf_eq_spec (content : String) :
    detectPlatformOf content = specPlatform content := by
  simp only [detectPlatformOf, specPlatform, platformRules, firstRule]
  repeat' split <;> (try rfl) <;> simp_all

/-- `extract_date` agrees with the spec's field-order/pattern-order rule. -/
theorem extractDateOf_eq_spec (content : String) (metadata : Option Metadata) :
    extractDateOf content metadata = specExtractDate content metadata := by
  simp only [extractDateOf, specExtractDate]
  cases metadata with
  | none => rfl
  | some md =>
    cases md with
    | nil => rfl
    | cons kv tl =>
      cases hd : dictGet (kv :: tl) "date" with
      | some v => simp [hd, Option.orElse]
      | none =>
        cases ht : dictGet (kv :: tl) "timestamp" with
        | some v => simp [hd, ht, Option.orElse]
        | none =>
          cases hc : dictGet (kv :: tl) "created_at" with
          | some v => simp [hd, ht, hc, Option.orElse]
          | none => simp [hd, ht, hc, Option.orElse]

/-- The platform fill step touches no other field. -/
theorem enrich_platform_step_fields (e : Entry) :
    e.enrichPlatformStep.content = e.content ∧
    e.enrichPlatformStep.metadata = e.metadata ∧
    e.enrichPlatformStep.similarity_score = e.similarity_score ∧
    e.enrichPlatformStep.date = e.date := by
  simp only [Entry.enrichPlatformStep]
  split <;> simp

/-- The date fill step touches no other field. -/
theorem enrich_date_step_fields (e : Entry) :
    e.enrichDateStep.content = e.content ∧
    e.enrichDateStep.metadata = e.metadata ∧
    e.enrichDateStep.similarity_score = e.similarity_score ∧
    e.enrichDateStep.platform = e.platform := by
  simp only [Entry.enrichDateStep]
  split <;> simp

/-- After the platform fill step the platform is always truthy. -/
theorem enrichPlatformStep_truthy (e : Entry) :
    optStrTruthy e.enrichPlatformStep.platform = true := by
  simp only [Entry.enrichPlatformStep]
  split
  · next h => exact h
  · simp [optStrTruthy, Entry.detect_platform, detectPlatformOf_ne_empty]

/-- The platform fill step keeps an entry with truthy platform unchanged. -/
theorem enrichPlatformStep_noop (e : Entry) (h : optStrTruthy e.platform = true) :
    e.enrichPlatformStep = e := by
  simp [Entry.enrichPlatformStep, h]

/-- The date fill step is idempotent. -/
theorem enrichDateStep_idem (e : Entry) :
    e.enrichDateStep.enrichDateStep = e.enrichDateStep := by
  rcases e with ⟨c, m, ss, pf, d⟩
  simp only [Entry.enrichDateStep, Entry.extract_date]
  by_cases hd : optStrTruthy d = true
  · simp [hd]
  · simp only [hd, if_false, Bool.false_eq_true]
    by_cases he : optStrTruthy (extractDateOf c m) = true <;> simp [he]

/-- Enrichment is idempotent. -/
theorem enrich_idem (e : Entry) : e.enrich_metadata.enrich_metadata = e.enrich_metadata := by
  simp only [Entry.enrich_metadata]
  have hplat : (e.enrichPlatformStep.enrichDateStep).platform = e.enrichPlatformStep.platform :=
    (enrich_date_step_fields _).2.2.2
  have hx : optStrTruthy ((e.enrichPlatformStep.enrichDateStep).platform) = true := by
    rw [hplat]; exact enrichPlatformStep_truthy e
  have h1 : (e.enrichPlatformStep.enrichDateStep).enrichPlatformStep
      = e.enrichPlatformStep.enrichDateStep := enrichPlatformStep_noop _ hx
  rw [h1, enrichDateStep_idem]

/-- Enrichment never changes content. -/
theorem enrich_content (e : Entry) : e.enrich_metadata.content = e.content := by
  simp only [Entry.enrich_metadata]
  exact ((enrich_date_step_fields _).1).trans (enrich_platform_step_fields e).1

/-- Enrichment never changes metadata. -/
theorem enrich_metadata_field (e : Entry) : e.enrich_metadata.metadata = e.metadata := by
  simp only [Entry.enrich_metadata]
  exact ((enrich_date_step_fields _).2.1).trans (enrich_platform_step_fields e).2.1

/-- Enrichment never changes the similarity score. -/
theorem enrich_score (e : Entry) :
    e.enrich_metadata.similarity_score = e.similarity_score := by
  simp only [Entry.enrich_metadata]
  exact ((enrich_date_step_fields _).2.2.1).trans (enrich_platform_step_fields e).2.2.1

/-- A string with a non-empty string in front of it changes. -/
theorem append_ne_self (p q : String) (h : p ≠ "") : p ++ q ≠ q := by
  intro hEq
  have hlen := congrArg String.length hEq
  rw [String.length_append] at hlen
  have hp0 : p.data.length = 0 := by
    have : p.length = 0 := by omega
    exact this
  have hnil : p.data = [] := List.length_eq_zero.mp hp0
  apply h
  cases p
  simp_all

/-- The constructor never leaves an empty instruction. -/
theorem initQueryPrefix_ne_empty (qp : Option String) : initQueryPrefix qp ≠ "" := by
  cases qp with
  | none => decide
  | some s =>
    by_cases hs : s = ""
    · simp only [initQueryPrefix, if_pos hs]; decide
    · simp only [initQueryPrefix, if_neg hs]; exact hs

/-- `ensure_collection_exists` never changes points, the id counter or the
upsert counter. -/
theorem ensure_preserves_data (c : QdrantConnector) (name : String) (st : St) :
    (c.ensure_collection_exists name st).points = st.points ∧
    (c.ensure_collection_exists name st).nextId = st.nextId ∧
    (c.ensure_collection_exists name st).upsertCalls = st.upsertCalls := by
  simp only [QdrantConnector.ensure_collection_exists]
  split <;> simp

/-- The effect of one successful `store` on points and counters. -/
theorem store_ok (c : QdrantConnector) (entry : Entry) (cn : Option String)
    (name : String) (st : St) (hres : c.resolveCollection cn = some name) :
    (c.store entry cn st).1 = none ∧
    (c.store entry cn st).2.points = st.points ++ [(name, storedPoint c entry st.nextId)] ∧
    (c.store entry cn st).2.nextId = st.nextId + 1 ∧
    (c.store entry cn st).2.upsertCalls = st.upsertCalls + 1 := by
  obtain ⟨hpts, hnid, hup⟩ := ensure_preserves_data c name st
  refine ⟨?_, ?_, ?_, ?_⟩ <;> simp [QdrantConnector.store, hres, hpts, hnid, hup]

/-! ## Claim theorems -/

/-- C1 (counterexample): with the default (non-empty) instruction configured
and the non-empty query `"q"`, a backend that collides all texts makes
`embed_query` return exactly `embed_documents(["q"])[0]`, so a non-empty
configured instruction does not force the two vectors to differ. -/
theorem query_doc_embedding_collision :
    constProvider.queryPrefix ≠ "" ∧ ("q" : String) ≠ "" ∧
    constProvider.embed_query "q" = (constProvider.embed_documents ["q"]).headD [] := by
  refine ⟨by decide, by decide, rfl⟩

/-- C1 (amended): `embed_query` submits the instruction-concatenated text to
the backend's `query_embed` and `embed_documents` submits the raw text to
`passage_embed`; the submitted query text differs from the raw text exactly
when the configured instruction is non-empty. Whether the resulting vectors
differ or coincide is decided by the external backend (which moreover is
reached through two distinct endpoints), not by this layer. -/
theorem embed_query_text_asymmetry (p : CustomFastEmbedProvider) (q : String) :
    p.embed_query q = p.query_embed (p.queryText q) ∧
    p.embed_documents [q] = [p.passage_embed q] ∧
    (p.queryPrefix ≠ "" → p.queryText q = p.queryPrefix ++ q ∧ p.queryText q ≠ q) ∧
    (p.queryPrefix = "" → p.queryText q = q) := by
  refine ⟨rfl, rfl, ?_, ?_⟩
  · intro h
    have ht : p.queryText q = p.queryPrefix ++ q := by
      simp [CustomFastEmbedProvider.queryText, h]
    exact ⟨ht, ht ▸ append_ne_self p.queryPrefix q h⟩
  · intro h
    simp [CustomFastEmbedProvider.queryText, h]

/-- C1 witness: the amended theorem applied to the default-instruction
provider at the query `"a"`. -/
theorem embed_query_text_asymmetry_witness :
    constProvider.queryText "a" = constProvider.queryPrefix ++ "a" ∧
    constProvider.queryText "a" ≠ "a" :=
  (embed_query_text_asymmetry constProvider "a").2.2.1 (by decide)

/-- C2: `store` with no explicit collection name and no configured default
fails with the `ConfigurationError` of the spec's taxonomy (the failed
assert), returning the remote state untouched: no embedding call and no
remote-store call was made. -/
theorem store_requires_collection_name (c : QdrantConnector) (entry : Entry) (st : St)
    (h : c.default_collection_name = none) :
    c.store entry none st = (some QErr.configurationError, st) := by
  simp [QdrantConnector.store, QdrantConnector.resolveCollection, h]

/-- C2 witness: the theorem at a concrete connector without a default. -/
theorem store_requires_collection_name_witness :
    connNoDefault.store { content := "hello" } none {} = (some QErr.configurationError, {}) :=
  store_requires_collection_name connNoDefault { content := "hello" } {} rfl

/-- C3: `search` on a resolved collection name absent from the remote store
returns the empty list with no error and an unchanged state, for every
query, limit, filter and remote response. -/
theorem search_missing_collection_empty (c : QdrantConnector) (query : String)
    (cn : Option String) (name : String) (limit : Nat) (query_filter : Option Metadata)
    (remote : List ScoredPoint) (st : St)
    (hres : c.resolveCollection cn = some name)
    (habs : name ∉ st.collections) :
    c.search query cn limit query_filter remote st = (none, [], st) := by
  simp [QdrantConnector.search, hres, habs]

/-- C3 witness: searching the default collection of an empty remote store. -/
theorem search_missing_collection_empty_witness :
    connWithDefault.search "q" none 10 none [] {} = (none, [], {}) :=
  search_missing_collection_empty connWithDefault "q" none "memories" 10 none [] {} rfl
    (by simp [St.collections])

/-- C4: two sequential `_ensure_collection_exists` calls on an absent name
produce exactly one creation call, and on an existing name the call is a
no-op (no creation attempt, no error). -/
theorem ensure_collection_idempotent (c : QdrantConnector) (name : String) (st : St) :
    (name ∉ st.collections →
      (c.ensure_collection_exists name (c.ensure_collection_exists name st)).createCalls
        = st.createCalls + 1) ∧
    (name ∈ st.collections → c.ensure_collection_exists name st = st) := by
  constructor
  · intro h
    simp [QdrantConnector.ensure_collection_exists, h]
  · intro h
    simp [QdrantConnector.ensure_collection_exists, h]

/-- C4 witness: the double call on a fresh store creates exactly once. -/
theorem ensure_collection_idempotent_witness :
    (connWithDefault.ensure_collection_exists "m"
      (connWithDefault.ensure_collection_exists "m" {})).createCalls
      = ({} : St).createCalls + 1 :=
  (ensure_collection_idempotent connWithDefault "m" {}).1 (by simp [St.collections])

/-- C5: platform detection is the spec's case-insensitive ordered first-match
rule set (Twitter/X, Instagram, Facebook, LinkedIn, TikTok, YouTube, Reddit,
then the `http` fallback, then the `"Social Media"` default, never absent);
in particular the two quoted examples. -/
theorem detect_platform_ordered_rules :
    (∀ e : Entry, e.detect_platform = specPlatform e.content) ∧
    Entry.detect_platform { content := "Check this out #fyp #foryou" } = "TikTok" ∧
    Entry.detect_platform { content := "a plain note with no markers" } = "Social Media" := by
  refine ⟨?_, by decide, by decide⟩
  intro e
  simp only [Entry.detect_platform]
  exact detectPlatformOf_eq_spec e.content

/-- C6: date extraction checks the metadata fields `date`, `timestamp`,
`created_at` in order (first present, coerced to string), then the three
content regexes in order, and is absent when nothing matches; in particular
the quoted examples. -/
theorem extract_date_order :
    (∀ e : Entry, e.extract_date = specExtractDate e.content e.metadata) ∧
    Entry.extract_date { content := "Posted on 2024-03-15 about hiking" } = some "2024-03-15" ∧
    Entry.extract_date { content := "x", metadata := some [("timestamp", .vInt 1700000000)] }
      = some "1700000000" ∧
    Entry.extract_date { content := "content without any dates" } = none := by
  refine ⟨?_, by decide, by decide, by decide⟩
  intro e
  simp only [Entry.extract_date]
  exact extractDateOf_eq_spec e.content e.metadata

/-- C7 (counterexample): an entry whose `platform` is set to the empty
string does not retain that value — Python `if not self.platform:` treats
`""` as unset, so enrichment overwrites it. -/
theorem enrich_overwrites_empty_platform :
    (Entry.enrich_metadata { content := "x", platform := some "" }).platform ≠ some "" := by
  decide

/-- C7 (amended): enrichment is idempotent, and never overwrites an
already-set truthy value: a non-empty preset `platform` or `date` is
retained exactly; only the falsy value `""` is treated as unset and
recomputed. -/
theorem enrich_idempotent_no_truthy_overwrite :
    (∀ e : Entry, e.enrich_metadata.enrich_metadata = e.enrich_metadata) ∧
    (∀ (e : Entry) (s : String), s ≠ "" → e.platform = some s →
      e.enrich_metadata.platform = some s) ∧
    (∀ (e : Entry) (s : String), s ≠ "" → e.date = some s →
      e.enrich_metadata.date = some s) := by
  refine ⟨enrich_idem, ?_, ?_⟩
  · intro e s hs hp
    have h1 : e.enrichPlatformStep = e :=
      enrichPlatformStep_noop e (by simp [optStrTruthy, hp, hs])
    simp only [Entry.enrich_metadata, h1]
    rw [(enrich_date_step_fields e).2.2.2, hp]
  · intro e s hs hd
    have hd1 : e.enrichPlatformStep.date = e.date := (enrich_platform_step_fields e).2.2.2
    have ht : optStrTruthy e.enrichPlatformStep.date = true := by
      rw [hd1, hd]; simp [optStrTruthy, hs]
    simp only [Entry.enrich_metadata, Entry.enrichDateStep, ht, if_true]
    rw [hd1, hd]

/-- C7 witness: the amended theorem at the spec's own example, an entry
preset with `platform="Custom"`. -/
theorem enrich_idempotent_no_truthy_overwrite_witness :
    (Entry.enrich_metadata { content := "x", platform := some "Custom" }).platform
      = some "Custom" :=
  enrich_idempotent_no_truthy_overwrite.2.1 { content := "x", platform := some "Custom" }
    "Custom" (by decide) rfl

/-- C8 (counterexample): a payload whose `document` key is present with the
empty string and whose `text` key holds `"t"` yields content `"t"` — the
fallback also fires on a present-but-falsy document value, not only on an
absent one. -/
theorem content_fallback_on_empty_document :
    fallbackPoint.payload
        = some { document := some (.vStr ""), text := some (.vStr "t") } ∧
    (mapScoredPoint fallbackPoint).map Entry.content = some "t" := by
  exact ⟨rfl, by decide⟩

/-- C8 (amended): each remote result maps to an entry whose content is the
payload's document value when that value is a non-empty string, falling back
to the `text` value when the document key is absent or holds `""`, and to
`""` when the `text` key is absent too or the payload itself is missing —
without raising; metadata is the payload's metadata and the similarity score
is the remote score (or null) passed through. -/
theorem search_result_mapping :
    (∀ r : ScoredPoint, r.payload = none →
      (mapScoredPoint r).map Entry.content = some "" ∧
      (mapScoredPoint r).map Entry.metadata = some none ∧
      (mapScoredPoint r).map Entry.similarity_score = some r.score) ∧
    (∀ (r : ScoredPoint) (pl : Payload) (s : String), r.payload = some pl →
      pl.document = some (.vStr s) → s ≠ "" →
      (mapScoredPoint r).map Entry.content = some s ∧
      (mapScoredPoint r).map Entry.metadata = some pl.metadata ∧
      (mapScoredPoint r).map Entry.similarity_score = some r.score) ∧
    (∀ (r : ScoredPoint) (pl : Payload) (t : String), r.payload = some pl →
      (pl.document = none ∨ pl.document = some (.vStr "")) →
      pl.text = some (.vStr t) →
      (mapScoredPoint r).map Entry.content = some t) ∧
    (∀ (r : ScoredPoint) (pl : Payload), r.payload = some pl →
      (pl.document = none ∨ pl.document = some (.vStr "")) →
      pl.text = none →
      (mapScoredPoint r).map Entry.content = some "") := by
  refine ⟨?_, ?_, ?_, ?_⟩
  · intro r h
    simp [mapScoredPoint, h, contentVal, enrich_content, enrich_metadata_field, enrich_score]
  · intro r pl s h hdoc hs
    simp [mapScoredPoint, h, contentVal, hdoc, pyTruthy, hs,
      enrich_content, enrich_metadata_field, enrich_score]
  · intro r pl t h hdoc htxt
    rcases hdoc with hdoc | hdoc <;>
      simp [mapScoredPoint, h, contentVal, hdoc, htxt, pyTruthy, enrich_content]
  · intro r pl h hdoc htxt
    rcases hdoc with hdoc | hdoc <;>
      simp [mapScoredPoint, h, contentVal, hdoc, htxt, pyTruthy, enrich_content]

/-- C8 witness: the amended theorem at a result with a plain document. -/
theorem search_result_mapping_witness :
    (mapScoredPoint docPoint).map Entry.content = some "doc" :=
  (search_result_mapping.2.1 docPoint { document := some (.vStr "doc") } "doc" rfl rfl
    (by decide)).1

/-- C9: every successful `store` upserts exactly one point — fresh
identifier, vector under the provider's vector name, payload with the
original content and metadata — and a second store of the identical entry
adds a second point with a distinct identifier. -/
theorem store_upserts_fresh_point (c : QdrantConnector) (entry : Entry) (cn : Option String)
    (name : String) (st : St)
    (hres : c.resolveCollection cn = some name)
    (hfresh : ∀ p ∈ st.points, p.2.id < st.nextId) :
    (c.store entry cn st).1 = none ∧
    (c.store entry cn st).2.points = st.points ++ [(name, storedPoint c entry st.nextId)] ∧
    (c.store entry cn st).2.upsertCalls = st.upsertCalls + 1 ∧
    (storedPoint c entry st.nextId).id ∉ st.points.map (fun p => p.2.id) ∧
    (c.store entry cn ((c.store entry cn st).2)).2.points
      = st.points ++ [(name, storedPoint c entry st.nextId),
                      (name, storedPoint c entry (st.nextId + 1))] ∧
    (storedPoint c entry st.nextId).id ≠ (storedPoint c entry (st.nextId + 1)).id := by
  obtain ⟨h1, h2, h3, h4⟩ := store_ok c entry cn name st hres
  obtain ⟨g1, g2, g3, g4⟩ := store_ok c entry cn name ((c.store entry cn st).2) hres
  refine ⟨h1, h2, h4, ?_, ?_, ?_⟩
  · simp only [storedPoint, List.mem_map]
    rintro ⟨p, hp, hid⟩
    have := hfresh p hp
    omega
  · rw [g2, h2, h3]
    simp [List.append_assoc]
  · simp [storedPoint]

/-- C9 witness: storing into an empty remote store succeeds. -/
theorem store_upserts_fresh_point_witness :
    (connWithDefault.store { content := "hi" } none {}).1 = none :=
  (store_upserts_fresh_point connWithDefault { content := "hi" } none "memories" {} rfl
    (by simp [St.points])).1

/-- C10: a provider constructed with `query_prefix` equal to `None` or `""`
gets the default instruction; the constructor can never leave an empty
instruction, and `embed_query` always submits the (non-empty) instruction
concatenated in front of the query. -/
theorem init_query_instruction_nonempty (qp : Option String) (qe pe : String → List Rat)
    (vs : Nat) (q : String) :
    ((qp = none ∨ qp = some "") →
      (CustomFastEmbedProvider.init qp qe pe vs).queryPrefix = DEFAULT_QUERY_PREFIX) ∧
    (CustomFastEmbedProvider.init qp qe pe vs).queryPrefix ≠ "" ∧
    (CustomFastEmbedProvider.init qp qe pe vs).embed_query q =
      qe ((CustomFastEmbedProvider.init qp qe pe vs).queryPrefix ++ q) := by
  refine ⟨?_, initQueryPrefix_ne_empty qp, ?_⟩
  · rintro (rfl | rfl) <;> simp [CustomFastEmbedProvider.init, initQueryPrefix]
  · simp [CustomFastEmbedProvider.embed_query, CustomFastEmbedProvider.queryText,
      CustomFastEmbedProvider.init, initQueryPrefix_ne_empty qp]

/-- C10 witness: the theorem at `query_prefix = None` over a concrete
backend. -/
theorem init_query_instruction_nonempty_witness :
    (CustomFastEmbedProvider.init none constBackend constBackend 1024).queryPrefix
      = DEFAULT_QUERY_PREFIX :=
  (init_query_instruction_nonempty none constBackend constBackend 1024 "a").1 (Or.inl rfl)

end McpQdrant
